import Mathlib

/-!
# Verification of the ReceiptRenamer pipeline

Shallow embedding of `receipt_renamer.py`: the string-sanitization rules,
the success/failed classification, the collision-resolving filename probe,
the GPT-parse fallback behaviour and the per-file ledger-row loop of
`process_receipts`.  External effects (OCR, the OpenAI call, the
filesystem, the clock) are supplied through an explicit per-file
environment `FileEnv`; each Python `try/except` branch becomes a branch of
a total Lean function.  Strings are modelled at the ASCII level (the
Python regexes `[a-z]`, `[A-Z]`, `\d`, `\s` used by the source are ASCII
classes on the inputs the pipeline feeds them, since the control
characters 0x00-0x1F are removed first).
-/

namespace ReceiptRenamer

/-- Whitespace test used to model Python `str.strip()` and the regex `\s`. -/
def isWS (c : Char) : Bool := c.isWhitespace

/-- Leading-whitespace removal, one half of Python `str.strip()`. -/
def trimLeft (l : List Char) : List Char := l.dropWhile isWS

/-- Trailing-whitespace removal, the other half of Python `str.strip()`. -/
def trimRight (l : List Char) : List Char := (l.reverse.dropWhile isWS).reverse

/-- Model of Python `str.strip()`. -/
def trim (l : List Char) : List Char := trimRight (trimLeft l)

/-- The characters removed from organization names:
Python `re.sub(r'[\\/:*?"<>|]', '', ...)` (receipt_renamer.py line 195). -/
def forbidden_chars : List Char := ['\\', '/', ':', '*', '?', '"', '<', '>', '|']

/-- Line 195: strip the filesystem-hostile characters. -/
def remove_forbidden (l : List Char) : List Char :=
  l.filter (fun c => !(forbidden_chars.contains c))

/-- Line 196: `re.sub(r'[\x00-\x1F]', '', ...)`, remove control characters. -/
def remove_control (l : List Char) : List Char :=
  l.filter (fun c => !(c.toNat ≤ 0x1F))

/-- Line 199: `re.sub(r"(?<=[a-z])(?=[A-Z])", " ", ...)`, insert a space
between a lowercase letter and an immediately following uppercase letter. -/
def deCamel : List Char → List Char
  | [] => []
  | [c] => [c]
  | a :: b :: rest =>
      if a.isLower && b.isUpper then a :: ' ' :: deCamel (b :: rest)
      else a :: deCamel (b :: rest)

/-- Line 201: `re.sub(r"\s+", " ", ...)`, collapse each whitespace run to a
single space.  The Boolean records whether the previous character was
whitespace (i.e. whether we are inside a run already emitted). -/
def collapse_ws : Bool → List Char → List Char
  | _, [] => []
  | prevWS, c :: rest =>
      if isWS c then
        if prevWS then collapse_ws true rest
        else ' ' :: collapse_ws true rest
      else c :: collapse_ws false rest

/-- Lines 190-205: the organization part of the generated filename. -/
def recipient_filename_part (r : String) : String :=
  if r = "UNKNOWN" then "UnknownOrg"
  else
    let s1 := remove_forbidden r.data
    let s2 := remove_control s1
    let s3 := trim s2
    let s4 := trim (deCamel s3)
    let s5 := collapse_ws false s4
    String.mk (if 50 < s5.length then trim (s5.take 50) else s5)

/-- Lines 209-218: the amount part of the generated filename.
`re.sub(r"[^\d.]", "", ...)`, then `split('.')[0]` when a dot is present,
then `"0"` when empty. -/
def amount_filename_part (a : String) : String :=
  if a = "UNKNOWN" then "UnknownAmount"
  else
    let s1 := a.data.filter (fun c => c.isDigit || c == '.')
    let s2 := if s1.contains '.' then s1.takeWhile (fun c => c != '.') else s1
    if s2.isEmpty then "0" else String.mk s2

/-- Lines 221-223: the date part of the generated filename (passed through). -/
def date_filename_part (d : String) : String :=
  if d = "UNKNOWN" then "UnknownDate" else d

/-- Line 234: `f"{recipient_filename_part}_${amount_filename_part}_{date_filename_part}"`. -/
def success_base_name (rp ap dp : String) : String :=
  rp ++ "_$" ++ ap ++ "_" ++ dp

/-- A single quote character, used in the log messages of the source. -/
def sq (s : String) : String :=
  String.singleton (Char.ofNat 39) ++ s ++ String.singleton (Char.ofNat 39)

/-- Model of `os.path.join` on POSIX-style paths. -/
def joinPath (a b : String) : String := a ++ "/" ++ b

/-- Model of `os.path.basename`: the component after the last slash. -/
def basename (p : String) : String :=
  String.mk ((p.data.reverse.takeWhile (fun c => c != '/')).reverse)

/-- Model of `os.path.splitext(...)[0]`: drop the last dot-extension. -/
def splitext_stem (f : String) : String :=
  let parts := f.splitOn "."
  if parts.length ≤ 1 then f else String.intercalate "." parts.dropLast

/-- ASCII lower-casing of one character, for Python `str.lower()`. -/
def lower_char (c : Char) : Char :=
  if c.isUpper then Char.ofNat (c.toNat + 32) else c

/-- Characters of `p.lower()`. -/
def lower_str (p : String) : List Char := p.data.map lower_char

/-- Line 44 / 256: `file_path.lower().endswith(".pdf")`. -/
def has_pdf_ext (p : String) : Bool :=
  List.isSuffixOf ".pdf".data (lower_str p)

/-- Line 49: the accepted image extensions. -/
def image_exts : List String := [".png", ".jpg", ".jpeg", ".gif", ".bmp", ".tiff"]

/-- Line 49: `file_path.lower().endswith(('.png', ...))`. -/
def has_image_ext (p : String) : Bool :=
  image_exts.any (fun e => List.isSuffixOf e.data (lower_str p))

/-- Python `text.strip()` at the String level (line 177). -/
def strip_string (s : String) : String := String.mk (trim s.data)

/-- Line 243: the `f"{base_new_filename}_{counter}.pdf"` collision attempt. -/
def numbered_name (base : String) (c : Nat) : String :=
  base ++ "_" ++ toString c ++ ".pdf"

/-- Lines 242-245: the `while os.path.exists(...)` probe, starting at a
given counter, with explicit fuel (the Python loop has none; every theorem
about the probe supplies enough fuel to cover the occupied ladder). -/
def probe_loop (ex : String → Bool) (mk : Nat → String) : Nat → Nat → String
  | counter, 0 => mk counter
  | counter, fuel + 1 =>
      if ex (mk counter) then probe_loop ex mk (counter + 1) fuel else mk counter

/-- Lines 239-245: first try `first`; on collision run the numbered probe
from counter 1. -/
def unique_name (ex : String → Bool) (first : String) (mk : Nat → String)
    (fuel : Nat) : String :=
  if ex first then probe_loop ex mk 1 fuel else first

/-- The full collision resolution for a base name: `base.pdf`, then
`base_1.pdf`, `base_2.pdf`, ... -/
def resolve_name (ex : String → Bool) (base : String) (fuel : Nat) : String :=
  unique_name ex (base ++ ".pdf") (numbered_name base) fuel

/-- The three fields of the JSON object returned by the model, each
possibly missing (lines 98-102 read them with `.get(key, "UNKNOWN")`). -/
structure JsonFields where
  recipientOrgName : Option String
  amount : Option String
  date : Option String
deriving DecidableEq

/-- Outcome of the OpenAI call in `parse_receipt_with_gpt` (lines 88-123):
either a successfully decoded JSON object, or one of the three handled
exception classes (`openai.APIError`, `json.JSONDecodeError`, any other
`Exception`). -/
inductive GptOutcome where
  | apiError (msg : String)
  | invalidJson (content : String) (msg : String)
  | unexpectedError (msg : String)
  | success (fields : JsonFields)
deriving DecidableEq

/-- Whether the outcome is one of the three internally-absorbed failures. -/
def GptOutcome.isFailure : GptOutcome → Bool
  | .apiError _ => true
  | .invalidJson _ _ => true
  | .unexpectedError _ => true
  | .success _ => false

/-- The record produced by the parser. -/
structure ParsedRecord where
  recipientOrgName : String
  amount : String
  date : String
deriving DecidableEq

/-- The all-`UNKNOWN` record assigned in every exception handler. -/
def unknown_record : ParsedRecord :=
  { recipientOrgName := "UNKNOWN", amount := "UNKNOWN", date := "UNKNOWN" }

/-- Lines 88-124: `parse_receipt_with_gpt`.  A total function: every
exception class is handled inside the Python function and each handler
assigns the all-`UNKNOWN` result, so no exception reaches the caller. -/
def parse_receipt_with_gpt : GptOutcome → ParsedRecord
  | .success j =>
      { recipientOrgName := j.recipientOrgName.getD "UNKNOWN"
        amount := j.amount.getD "UNKNOWN"
        date := j.date.getD "UNKNOWN" }
  | .apiError _ => unknown_record
  | .invalidJson _ _ => unknown_record
  | .unexpectedError _ => unknown_record

/-- The data-model invariant stated by the spec for parsed fields: each
field is a non-empty string or the literal sentinel. -/
def good_field (s : String) : Prop := s = "UNKNOWN" ∨ s ≠ ""

/-- The external world as seen while processing one file: what the
filesystem, the OCR library, the OpenAI call and the clock do. -/
structure FileEnv where
  /-- `os.path.exists(file_path)` (lines 39 and 283). -/
  fileExists : Bool
  /-- `os.access(file_path, os.R_OK)` (line 41). -/
  readable : Bool
  /-- Result of the OCR/pdf rendering call when it is reached: the
  extracted text, or the message of the exception it raises. -/
  ocr : Except String String
  /-- Outcome of the OpenAI call. -/
  gpt : GptOutcome
  /-- `os.path.exists` on candidate output paths during collision probing. -/
  fsExists : String → Bool
  /-- Fuel bound for the collision `while` loops. -/
  probeFuel : Nat
  /-- Message of the exception raised by `shutil.copy2` / `img.save` on the
  main path, when that materialization fails. -/
  copyFails : Option String
  /-- Message of the exception raised by the error-bucket copy (line 285-288). -/
  errorCopyFails : Option String
  /-- `datetime.now().strftime('%Y%m%d%H%M%S')`. -/
  now : String

/-- Lines 32-55: `extract_text`.  Returns the text or the message of the
exception raised (FileNotFoundError, PermissionError, ValueError for an
unsupported extension, or whatever the OCR library raises). -/
def extract_text (p : String) (env : FileEnv) : Except String String :=
  if !env.fileExists then .error ("File not found: " ++ p)
  else if !env.readable then .error ("Cannot read file: " ++ p)
  else if has_pdf_ext p then env.ocr
  else if has_image_ext p then env.ocr
  else .error ("Unsupported file type: " ++ basename p ++
    ". Only PDF and common image formats are supported.")

/-- One CSV ledger row (the seven values written at lines 298-306). -/
structure LedgerRow where
  originalFilename : String
  recipientOrgName : String
  amount : String
  date : String
  newFilename : String
  status : String
  errorMessage : String
deriving DecidableEq

/-- The row as the 7-element cell list handed to `csv.writer`. -/
def LedgerRow.cells (r : LedgerRow) : List String :=
  [r.originalFilename, r.recipientOrgName, r.amount, r.date,
   r.newFilename, r.status, r.errorMessage]

/-- Everything observable from processing one file: the ledger row written
in the `finally` block, the log lines emitted, the copies/conversions
performed (source, destination path), and the value of the Python local
`target_output_folder` if it was ever assigned. -/
structure FileResult where
  row : LedgerRow
  logs : List String
  copies : List (String × String)
  target : Option String

/-- Lines 264-295: the `except Exception` branch of the per-file loop.
`recipient`, `amount`, `date` are whatever the locals held when the
exception fired; `excMsg` is `str(e)`. -/
def error_path (userOutputFolder filePath filename : String) (env : FileEnv)
    (recipient amount date : String) (target : Option String) (excMsg : String)
    (logsSoFar : List String) : FileResult :=
  let status0 := "ERROR - " ++ excMsg
  let log1 := "  - ERROR processing " ++ sq filename ++ ": " ++ excMsg
  let errFolder := joinPath userOutputFolder "error_receipts"
  let base := "ERROR_" ++ env.now ++ "_" ++ splitext_stem filename
  let resolved := resolve_name (fun n => env.fsExists (joinPath errFolder n))
      base env.probeFuel
  let finalPath := joinPath errFolder resolved
  let finalName := basename finalPath
  if env.fileExists then
    match env.errorCopyFails with
    | none =>
        { row := { originalFilename := filename, recipientOrgName := recipient
                   amount := amount, date := date, newFilename := finalName
                   status := status0, errorMessage := excMsg }
          logs := logsSoFar ++ [log1,
            "  - Copied " ++ sq filename ++ " to error folder as " ++ sq finalName ++ "."]
          copies := [(filePath, finalPath)]
          target := target }
    | some m =>
        { row := { originalFilename := filename, recipientOrgName := recipient
                   amount := amount, date := date, newFilename := finalName
                   status := "CRITICAL ERROR - " ++ m
                   errorMessage := "Failed to copy to error folder: " ++ m }
          logs := logsSoFar ++ [log1,
            "  - CRITICAL ERROR: Could not copy " ++ sq filename ++
            " to error folder " ++ sq errFolder ++ ": " ++ m]
          copies := []
          target := target }
  else
    { row := { originalFilename := filename, recipientOrgName := recipient
               amount := amount, date := date, newFilename := finalName
               status := status0, errorMessage := excMsg }
      logs := logsSoFar ++ [log1,
        "  - Original file " ++ sq filename ++
        " was missing or already processed. Cannot copy to error folder."]
      copies := []
      target := target }

/-- Lines 160-307: the body of the per-file loop, from `try` through
`finally`.  Returns the single ledger row the `finally` block writes. -/
def process_one (userOutputFolder filePath : String) (env : FileEnv) : FileResult :=
  let filename := basename filePath
  let logs0 := ["\nProcessing " ++ sq filename ++ "..."]
  match extract_text filePath env with
  | .error e =>
      error_path userOutputFolder filePath filename env
        "UNKNOWN" "UNKNOWN" "UNKNOWN" none e logs0
  | .ok text =>
    if strip_string text = "" then
      error_path userOutputFolder filePath filename env
        "UNKNOWN" "UNKNOWN" "UNKNOWN" none
        "No discernible text extracted from the file." logs0
    else
      let parsed := parse_receipt_with_gpt env.gpt
      let recipient := parsed.recipientOrgName
      let amount := parsed.amount
      let date := parsed.date
      let rp := recipient_filename_part recipient
      let ap := amount_filename_part amount
      let dp := date_filename_part date
      let failed := [recipient, amount, date].contains "UNKNOWN"
      let status := if failed then "FAILED - Missing Data" else "SUCCESS"
      let base := if failed
        then "FAILED_" ++ env.now ++ "_" ++ splitext_stem filename
        else success_base_name rp ap dp
      let target := if failed then joinPath userOutputFolder "failed_receipts"
        else userOutputFolder
      let statusLog := "  - Status: " ++ status ++ ". Moving to " ++ sq target ++ "."
      let resolved := resolve_name (fun n => env.fsExists (joinPath target n))
          base env.probeFuel
      let finalPath := joinPath target resolved
      let finalName := basename finalPath
      match env.copyFails with
      | some m =>
          error_path userOutputFolder filePath filename env
            recipient amount date (some target) m (logs0 ++ [statusLog])
      | none =>
          let copyLog := if has_pdf_ext filePath
            then "  - Copied " ++ sq filename ++ " to " ++ sq finalName ++ "."
            else "  - Converted " ++ sq filename ++ " to PDF and saved as " ++
              sq finalName ++ ". (Original image not moved or deleted)"
          { row := { originalFilename := filename, recipientOrgName := recipient
                     amount := amount, date := date, newFilename := finalName
                     status := status, errorMessage := "" }
            logs := logs0 ++ [statusLog, copyLog]
            copies := [(filePath, finalPath)]
            target := some target }

/-- Line 158: the fixed CSV header. -/
def header_row : List String :=
  ["Original Filename", "RecipientOrgName", "Amount", "Date",
   "New Filename", "Status", "Error Message"]

/-- Lines 128-310: `process_receipts`.  Each input file is paired with its
environment.  `none` models the early `return` taken when the file list is
empty or no output folder was supplied (lines 136-142): no ledger is
written at all.  Otherwise the ledger is the header row followed by the
one row per file written by the `finally` block. -/
def process_receipts (files : List (String × FileEnv))
    (userOutputFolder : String) : Option (List (List String)) :=
  if files.isEmpty then none
  else if userOutputFolder = "" then none
  else some (header_row ::
    files.map (fun pe => (process_one userOutputFolder pe.1 pe.2).row.cells))

/-! ## Helper lemmas -/

/-- The membership test of line 226 as a disjunction of equalities. -/
lemma contains_unknown_eq (o a d : String) :
    [o, a, d].contains "UNKNOWN" =
      (decide (o = "UNKNOWN") || decide (a = "UNKNOWN") || decide (d = "UNKNOWN")) := by
  by_cases ho : o = "UNKNOWN" <;> by_cases ha : a = "UNKNOWN" <;>
    by_cases hd : d = "UNKNOWN" <;>
    simp [ho, ha, hd, List.contains_cons, eq_comm]

/-- A sample environment used by concrete witnesses: a readable PDF whose
text parses completely, an empty output tree, and no I/O failures. -/
def sample_env : FileEnv :=
  { fileExists := true, readable := true, ocr := .ok "some text",
    gpt := .success { recipientOrgName := some "Red Cross",
                      amount := some "125.50", date := some "03.22.2023" },
    fsExists := fun _ => false, probeFuel := 5,
    copyFails := none, errorCopyFails := none, now := "20240101120000" }

/-! ## Claims -/

/-- C7: for every behaviour of the language-model call, the parser is a
total function of the outcome (it never propagates an exception), and on
each of the three internally handled failures (API error, invalid JSON,
any other exception) it returns the all-UNKNOWN record. -/
theorem parser_absorbs_failures (g : GptOutcome) (h : g.isFailure = true) :
    parse_receipt_with_gpt g = unknown_record := by
  cases g <;> first | rfl | simp [GptOutcome.isFailure] at h

theorem parser_absorbs_failures_witness :
    parse_receipt_with_gpt (.apiError "connection reset") = unknown_record :=
  parser_absorbs_failures (.apiError "connection reset") rfl

/-- C8 counterexample: a model response whose RecipientOrgName key is
present but holds the empty string is returned verbatim, so the produced
record violates the invariant that every field is a non-empty string or
the sentinel. -/
theorem parser_invariant_cex :
    ¬ good_field (parse_receipt_with_gpt (.success
      { recipientOrgName := some "", amount := some "5",
        date := some "01.01.2020" })).recipientOrgName := by
  simp [good_field, parse_receipt_with_gpt]

/-- C8 amended: the parser normalizes exactly the missing keys to the
sentinel; any present value (including the empty string) flows through
verbatim into the record. -/
theorem parser_field_normalization (j : JsonFields) :
    ((∀ v, j.recipientOrgName = some v →
        (parse_receipt_with_gpt (.success j)).recipientOrgName = v) ∧
      (j.recipientOrgName = none →
        (parse_receipt_with_gpt (.success j)).recipientOrgName = "UNKNOWN")) ∧
    ((∀ v, j.amount = some v →
        (parse_receipt_with_gpt (.success j)).amount = v) ∧
      (j.amount = none → (parse_receipt_with_gpt (.success j)).amount = "UNKNOWN")) ∧
    ((∀ v, j.date = some v →
        (parse_receipt_with_gpt (.success j)).date = v) ∧
      (j.date = none → (parse_receipt_with_gpt (.success j)).date = "UNKNOWN")) := by
  refine ⟨⟨fun v h => ?_, fun h => ?_⟩, ⟨fun v h => ?_, fun h => ?_⟩,
    ⟨fun v h => ?_, fun h => ?_⟩⟩ <;> simp [parse_receipt_with_gpt, h]

theorem parser_field_normalization_witness :
    (parse_receipt_with_gpt (.success
      { recipientOrgName := some "", amount := none,
        date := some "01.01.2020" })).recipientOrgName = "" :=
  (parser_field_normalization
    { recipientOrgName := some "", amount := none,
      date := some "01.01.2020" }).1.1 "" rfl

/-- C2: whenever the run starts (non-empty file list and a non-empty
output folder), the ledger is the fixed 7-column header row followed by
exactly one row per input file, whichever path (success, failed-missing-
data, error, critical-error) each file takes; its total row count is the
file count plus one. -/
theorem ledger_row_count (files : List (String × FileEnv)) (folder : String)
    (hf : files ≠ []) (ho : folder ≠ "") :
    ∃ rows, process_receipts files folder = some (header_row :: rows) ∧
      rows.length = files.length ∧
      rows = files.map (fun pe => (process_one folder pe.1 pe.2).row.cells) ∧
      header_row.length = 7 ∧ ∀ r ∈ rows, r.length = 7 := by
  refine ⟨files.map (fun pe => (process_one folder pe.1 pe.2).row.cells),
    ?_, by simp, rfl, rfl, ?_⟩
  · unfold process_receipts
    rw [if_neg (by simpa using hf), if_neg ho]
  · intro r hr
    rcases List.mem_map.mp hr with ⟨pe, _, rfl⟩
    rfl

theorem ledger_row_count_witness :
    ∃ rows, process_receipts [("a.pdf", sample_env)] "out" = some (header_row :: rows) ∧
      rows.length = [("a.pdf", sample_env)].length ∧
      rows = [("a.pdf", sample_env)].map
        (fun pe => (process_one "out" pe.1 pe.2).row.cells) ∧
      header_row.length = 7 ∧ ∀ r ∈ rows, r.length = 7 :=
  ledger_row_count [("a.pdf", sample_env)] "out" (by simp) (by simp)

set_option maxRecDepth 4000

/-- C1: for every parsed record reached on the normal path (text
extracted, not blank, materialization succeeds), if any of the three
fields equals "UNKNOWN" the ledger status is exactly
"FAILED - Missing Data" and the destination folder is the failed_receipts
subfolder of the output root; with no "UNKNOWN" field the status is
"SUCCESS" and the destination is the output root itself. -/
theorem classification_rule (folder path : String) (env : FileEnv) (t o a d : String)
    (hx : extract_text path env = .ok t) (hnb : ¬ strip_string t = "")
    (hp : parse_receipt_with_gpt env.gpt =
      { recipientOrgName := o, amount := a, date := d })
    (hc : env.copyFails = none) :
    ((o = "UNKNOWN" ∨ a = "UNKNOWN" ∨ d = "UNKNOWN") →
      (process_one folder path env).row.status = "FAILED - Missing Data" ∧
      (process_one folder path env).target = some (joinPath folder "failed_receipts")) ∧
    (o ≠ "UNKNOWN" → a ≠ "UNKNOWN" → d ≠ "UNKNOWN" →
      (process_one folder path env).row.status = "SUCCESS" ∧
      (process_one folder path env).target = some folder) := by
  constructor
  · intro h
    rcases h with h | h | h <;> subst h <;>
      simp [process_one, hx, hnb, hp, hc, List.contains_cons]
  · intro ho ha hd
    have ho2 : ¬ "UNKNOWN" = o := fun hh => ho hh.symm
    have ha2 : ¬ "UNKNOWN" = a := fun hh => ha hh.symm
    have hd2 : ¬ "UNKNOWN" = d := fun hh => hd hh.symm
    simp [process_one, hx, hnb, hp, hc, List.contains_cons, ho2, ha2, hd2]

theorem classification_rule_witness :
    (process_one "out" "/in/donation.pdf" sample_env).row.status = "SUCCESS" ∧
    (process_one "out" "/in/donation.pdf" sample_env).target = some "out" :=
  (classification_rule "out" "/in/donation.pdf" sample_env "some text"
    "Red Cross" "125.50" "03.22.2023" rfl (by decide) rfl rfl).2
    (by decide) (by decide) (by decide)

/-- C9: a path that does not exist on disk gets a ledger row whose status
is exactly "ERROR - File not found: <path>" (full path in the message), no
file is copied or converted anywhere, the error-bucket copy is skipped
with the explicit missing-file log line, and the run goes on to produce
the usual row for every other file in the list. -/
theorem missing_file_error (folder path : String) (env : FileEnv)
    (h : env.fileExists = false) (ho : folder ≠ "") :
    (process_one folder path env).row.status =
      "ERROR - " ++ ("File not found: " ++ path) ∧
    (process_one folder path env).copies = [] ∧
    ("  - Original file " ++ sq (basename path) ++
      " was missing or already processed. Cannot copy to error folder.")
        ∈ (process_one folder path env).logs ∧
    (∀ pre post, process_receipts (pre ++ (path, env) :: post) folder =
      some (header_row ::
        (pre.map (fun pe => (process_one folder pe.1 pe.2).row.cells) ++
          (process_one folder path env).row.cells ::
          post.map (fun pe => (process_one folder pe.1 pe.2).row.cells)))) := by
  refine ⟨?_, ?_, ?_, ?_⟩
  · simp [process_one, extract_text, h, error_path]
  · simp [process_one, extract_text, h, error_path]
  · simp [process_one, extract_text, h, error_path]
  · intro pre post
    simp [process_receipts, ho, List.map_append]

/-- The sample environment with the input file absent from disk. -/
def missing_env : FileEnv := { sample_env with fileExists := false }

theorem missing_file_error_witness :
    (process_one "out" "gone.pdf" missing_env).row.status =
      "ERROR - " ++ ("File not found: " ++ "gone.pdf") ∧
    (process_one "out" "gone.pdf" missing_env).copies = [] ∧
    process_receipts [("gone.pdf", missing_env), ("a.pdf", sample_env)] "out" =
      some (header_row ::
        ((process_one "out" "gone.pdf" missing_env).row.cells ::
          [("a.pdf", sample_env)].map
            (fun pe => (process_one "out" pe.1 pe.2).row.cells))) := by
  have h := missing_file_error "out" "gone.pdf" missing_env rfl (by decide)
  exact ⟨h.1, h.2.1, by simpa using h.2.2.2 [] [("a.pdf", sample_env)]⟩

/-- The probe walks the occupied ladder `base_c.pdf ... base_(k-1).pdf`
and stops at the first free rung, `base_k.pdf`. -/
lemma probe_loop_ladder (ex : String → Bool) (base : String) (k : Nat)
    (hi : ∀ i, i < k + 1 → 1 ≤ i → ex (numbered_name base i) = decide (i < k)) :
    ∀ fuel c, 1 ≤ c → c ≤ k → k - c ≤ fuel →
      probe_loop ex (numbered_name base) c fuel = numbered_name base k := by
  intro fuel
  induction fuel with
  | zero =>
    intro c h1 h2 h3
    have hck : c = k := by omega
    subst hck
    rfl
  | succ n ih =>
    intro c h1 h2 h3
    by_cases hck : c = k
    · subst hck
      have hex : ex (numbered_name base c) = false := by
        rw [hi c (by omega) h1]; simp
      simp [probe_loop, hex]
    · have hlt : c < k := lt_of_le_of_ne h2 hck
      have hex : ex (numbered_name base c) = true := by
        rw [hi c (by omega) h1]; simp [hlt]
      simp only [probe_loop, hex, if_true]
      exact ih (c + 1) (by omega) (by omega) (by omega)

/-- C4: when the pre-existing files named after `base` are exactly
`base.pdf, base_1.pdf, ..., base_(k-1).pdf`, the collision probe (given
fuel covering the ladder) returns `base.pdf` for k = 0 and `base_k.pdf`
otherwise, and the returned name never coincides with an existing file. -/
theorem collision_probe (ex : String → Bool) (base : String) (k fuel : Nat)
    (h0 : ex (base ++ ".pdf") = decide (0 < k))
    (hi : ∀ i, i < k + 1 → 1 ≤ i → ex (numbered_name base i) = decide (i < k))
    (hfuel : k ≤ fuel) :
    resolve_name ex base fuel =
      (if k = 0 then base ++ ".pdf" else numbered_name base k) ∧
    ex (resolve_name ex base fuel) = false := by
  rcases Nat.eq_zero_or_pos k with hk | hk
  · subst hk
    have hfree : ex (base ++ ".pdf") = false := by simpa using h0
    constructor
    · simp [resolve_name, unique_name, hfree]
    · simp [resolve_name, unique_name, hfree]
  · have h0t : ex (base ++ ".pdf") = true := by rw [h0]; simpa using hk
    have hres : resolve_name ex base fuel = numbered_name base k := by
      unfold resolve_name unique_name
      rw [h0t]
      simp only [if_true]
      exact probe_loop_ladder ex base k hi fuel 1 (by omega) hk (by omega)
    constructor
    · rw [hres, if_neg (by omega)]
    · rw [hres, hi k (by omega) hk]; simp

theorem collision_probe_witness :
    resolve_name (fun n => decide (n = "b.pdf" ∨ n = "b_1.pdf")) "b" 2 =
      (if 2 = 0 then "b" ++ ".pdf" else numbered_name "b" 2) ∧
    (fun n => decide (n = "b.pdf" ∨ n = "b_1.pdf"))
      (resolve_name (fun n => decide (n = "b.pdf" ∨ n = "b_1.pdf")) "b" 2) = false :=
  collision_probe (fun n => decide (n = "b.pdf" ∨ n = "b_1.pdf")) "b" 2 2
    (by decide) (by decide) (by decide)

/-- Modelled from the spec wording of C5, for comparison with the code:
strip every character that is not a digit or a dot, keep the part before
the first dot (the whole string when there is none), substitute "0" when
empty; the sentinel maps to "UnknownAmount". -/
def amount_part_spec (a : String) : String :=
  if a = "UNKNOWN" then "UnknownAmount"
  else
    let stripped := a.data.filter (fun c => c.isDigit || c == '.')
    let beforeDot := stripped.take (stripped.findIdx (fun c => c == '.'))
    if beforeDot.isEmpty then "0" else String.mk beforeDot

/-- Taking while not-a-dot is taking up to the index of the first dot. -/
lemma takeWhile_ne_dot (l : List Char) :
    l.takeWhile (fun c => c != '.') = l.take (l.findIdx (fun c => c == '.')) := by
  induction l with
  | nil => rfl
  | cons c t ih =>
    by_cases hc : c = '.'
    · subst hc; simp [List.takeWhile_cons, List.findIdx_cons]
    · have h1 : (c != '.') = true := by simp [hc]
      have h2 : (c == '.') = false := by simp [hc]
      simp [List.takeWhile_cons, List.findIdx_cons, h1, h2, ih]

/-- C5: for every amount other than the sentinel, the filename amount part
is: drop every character that is not a digit or a dot, cut at the first
remaining dot, and substitute "0" for an empty result; "1,234.56" gives
"1234", a string stripping to empty gives "0", and the sentinel gives the
literal "UnknownAmount". -/
theorem amount_sanitization :
    (∀ a, a ≠ "UNKNOWN" → amount_filename_part a = amount_part_spec a) ∧
    amount_filename_part "UNKNOWN" = "UnknownAmount" ∧
    amount_filename_part "1,234.56" = "1234" ∧
    amount_filename_part "xyz" = "0" := by
  refine ⟨?_, rfl, by decide, by decide⟩
  intro a ha
  unfold amount_filename_part amount_part_spec
  rw [if_neg ha, if_neg ha]
  dsimp only
  by_cases hc : (a.data.filter (fun c => c.isDigit || c == '.')).contains '.'
  · simp only [hc, if_true, takeWhile_ne_dot]
  · have hcf : (a.data.filter (fun c => c.isDigit || c == '.')).contains '.' = false := by
      simpa using hc
    have hall : ∀ x ∈ a.data.filter (fun c => c.isDigit || c == '.'),
        (x == '.') = false := by
      intro x hx
      rw [List.contains_eq_any_beq, List.any_eq_false] at hcf
      have h3 := hcf x hx
      rw [beq_eq_false_iff_ne]
      intro h4
      exact h3 (by simp [h4])
    rw [if_neg hc, List.findIdx_eq_length_of_false hall, List.take_length]

theorem amount_sanitization_witness :
    amount_filename_part "55.10" = amount_part_spec "55.10" :=
  amount_sanitization.1 "55.10" (by decide)

lemma getLast?_cons_of_getLast? (a : Char) (l : List Char) (c : Char)
    (h : l.getLast? = some c) : (a :: l).getLast? = some c := by
  cases l with
  | nil => simp at h
  | cons y ys => rw [List.getLast?_cons_cons]; exact h

lemma getLast?_trimRight (l : List Char) (c : Char)
    (h : (trimRight l).getLast? = some c) : isWS c = false := by
  unfold trimRight at h
  rw [List.getLast?_reverse] at h
  have h2 := List.head?_dropWhile_not isWS l.reverse
  rw [h] at h2
  exact h2

lemma getLast?_trim (l : List Char) (c : Char)
    (h : (trim l).getLast? = some c) : isWS c = false :=
  getLast?_trimRight (trimLeft l) c h

lemma getLast?_collapse : ∀ (l : List Char) (c : Char) (b : Bool),
    l.getLast? = some c → isWS c = false → (collapse_ws b l).getLast? = some c
  | [], c, b, hl, _ => by simp at hl
  | [x], c, b, hl, hc => by
      simp at hl
      subst hl
      simp [collapse_ws, hc]
  | x :: y :: xs, c, b, hl, hc => by
      have hl2 : (y :: xs).getLast? = some c := by
        rwa [List.getLast?_cons_cons] at hl
      have ih1 := getLast?_collapse (y :: xs) c true hl2 hc
      have ih2 := getLast?_collapse (y :: xs) c false hl2 hc
      by_cases hx : isWS x
      · cases b with
        | true => simpa [collapse_ws, hx] using ih1
        | false =>
            simp only [collapse_ws, hx, if_true, Bool.false_eq_true, if_false]
            exact getLast?_cons_of_getLast? ' ' _ c ih1
      · simp only [collapse_ws, hx, Bool.false_eq_true, if_false]
        exact getLast?_cons_of_getLast? x _ c ih2

lemma length_trim_le (l : List Char) : (trim l).length ≤ l.length := by
  unfold trim trimRight trimLeft
  have h1 := (List.dropWhile_sublist isWS (l := l)).length_le
  have h2 := (List.dropWhile_sublist isWS (l := (l.dropWhile isWS).reverse)).length_le
  simp only [List.length_reverse] at h2 ⊢
  omega

lemma length_truncated (l5 : List Char) :
    (if 50 < l5.length then trim (l5.take 50) else l5).length ≤ 50 := by
  split
  · exact le_trans (length_trim_le _) (List.length_take_le 50 l5)
  · omega

/-- C6: the organization filename part applies, in order, forbidden-
character removal, control-character removal, trim, de-camel-casing with a
re-trim, whitespace collapsing, and a 50-character truncation with a final
re-trim; "SomeCharityFoundation" becomes "Some Charity Foundation", an
80-character name truncates to at most 50 characters, the result never
ends in whitespace, and the sentinel maps to the literal "UnknownOrg". -/
theorem org_sanitization :
    recipient_filename_part "UNKNOWN" = "UnknownOrg" ∧
    recipient_filename_part "SomeCharityFoundation" = "Some Charity Foundation" ∧
    recipient_filename_part (String.mk (List.replicate 80 'a')) =
      String.mk (List.replicate 50 'a') ∧
    (∀ s, (recipient_filename_part s).length ≤ 50) ∧
    (∀ s c, (recipient_filename_part s).data.getLast? = some c → isWS c = false) := by
  refine ⟨rfl, by decide, by decide, ?_, ?_⟩
  · intro s
    by_cases hs : s = "UNKNOWN"
    · subst hs; decide
    · unfold recipient_filename_part
      rw [if_neg hs]
      dsimp only
      rw [String.length_mk]
      exact length_truncated _
  · intro s c h
    by_cases hs : s = "UNKNOWN"
    · subst hs
      simp [recipient_filename_part] at h
      subst h
      decide
    · unfold recipient_filename_part at h
      rw [if_neg hs] at h
      dsimp only at h
      split at h
      · exact getLast?_trim _ _ h
      · cases hs4 : (trim (deCamel (trim (remove_control (remove_forbidden s.data))))).getLast? with
        | none =>
            rw [List.getLast?_eq_none_iff] at hs4
            rw [hs4] at h
            simp [collapse_ws] at h
        | some c0 =>
            have hW := getLast?_trim _ _ hs4
            have hcol := getLast?_collapse _ c0 false hs4 hW
            rw [hcol] at h
            injection h with h
            subst h
            exact hW

theorem org_sanitization_witness :
    isWS 'b' = false ∧ (recipient_filename_part "ab ").length ≤ 50 :=
  ⟨org_sanitization.2.2.2.2 "ab " 'b' (by decide),
    org_sanitization.2.2.2.1 "ab "⟩

/-- C3 counterexample: the success base name joins the organization to the
dollar sign with an underscore, not with a space: for the Red Cross record
the base is "Red Cross_$125_03.22.2023", which differs from the
space-separated "Red Cross $125_03.22.2023" the claim's format string
describes. -/
theorem success_name_space_cex :
    success_base_name (recipient_filename_part "Red Cross")
        (amount_filename_part "125.50") (date_filename_part "03.22.2023") =
      "Red Cross_$125_03.22.2023" ∧
    ("Red Cross_$125_03.22.2023" : String) ≠ "Red Cross $125_03.22.2023" := by
  constructor
  · decide
  · decide

/-- C3 amended: for every record with no "UNKNOWN" field processed on the
normal path with no collision, the file lands in the output root under
`{org}_${amount}_{date}.pdf` (underscore before the literal dollar sign);
the Red Cross record materializes as `out/Red Cross_$125_03.22.2023.pdf`
(see the witness). -/
theorem success_name_format (folder path : String) (env : FileEnv) (t o a d : String)
    (hx : extract_text path env = .ok t) (hnb : ¬ strip_string t = "")
    (hp : parse_receipt_with_gpt env.gpt =
      { recipientOrgName := o, amount := a, date := d })
    (ho : o ≠ "UNKNOWN") (ha : a ≠ "UNKNOWN") (hd : d ≠ "UNKNOWN")
    (hc : env.copyFails = none) (hfs : ∀ n, env.fsExists n = false) :
    (process_one folder path env).row.status = "SUCCESS" ∧
    (process_one folder path env).copies =
      [(path, joinPath folder (success_base_name (recipient_filename_part o)
        (amount_filename_part a) (date_filename_part d) ++ ".pdf"))] := by
  have ho2 : ¬ "UNKNOWN" = o := fun hh => ho hh.symm
  have ha2 : ¬ "UNKNOWN" = a := fun hh => ha hh.symm
  have hd2 : ¬ "UNKNOWN" = d := fun hh => hd hh.symm
  constructor <;>
    simp [process_one, hx, hnb, hp, hc, List.contains_cons, ho2, ha2, hd2,
      resolve_name, unique_name, hfs]

theorem success_name_format_witness :
    (process_one "out" "/in/donation.pdf" sample_env).row.status = "SUCCESS" ∧
    (process_one "out" "/in/donation.pdf" sample_env).copies =
      [("/in/donation.pdf", "out/Red Cross_$125_03.22.2023.pdf")] := by
  have h := success_name_format "out" "/in/donation.pdf" sample_env "some text"
    "Red Cross" "125.50" "03.22.2023" rfl (by decide) rfl (by decide) (by decide)
    (by decide) rfl (fun n => rfl)
  exact ⟨h.1, h.2.trans (by decide)⟩


/-- C10: a record whose three fields all differ from "UNKNOWN" but whose
organization sanitizes to the empty string is still classified SUCCESS and
placed in the output root (classification compares the raw parsed fields,
never the sanitized parts), the empty organization is not replaced with
"UnknownOrg", and the generated base name starts with the characters
`_$` followed by the amount part. -/
theorem empty_org_still_success (folder path : String) (env : FileEnv) (t o a d : String)
    (hx : extract_text path env = .ok t) (hnb : ¬ strip_string t = "")
    (hp : parse_receipt_with_gpt env.gpt =
      { recipientOrgName := o, amount := a, date := d })
    (ho : o ≠ "UNKNOWN") (ha : a ≠ "UNKNOWN") (hd : d ≠ "UNKNOWN")
    (hempty : recipient_filename_part o = "")
    (hc : env.copyFails = none) (hfs : ∀ n, env.fsExists n = false) :
    (process_one folder path env).row.status = "SUCCESS" ∧
    (process_one folder path env).target = some folder ∧
    (process_one folder path env).copies =
      [(path, joinPath folder (success_base_name (recipient_filename_part o)
        (amount_filename_part a) (date_filename_part d) ++ ".pdf"))] ∧
    (∃ rest, success_base_name (recipient_filename_part o)
        (amount_filename_part a) (date_filename_part d) = "_$" ++ rest) := by
  have ho2 : ¬ "UNKNOWN" = o := fun hh => ho hh.symm
  have ha2 : ¬ "UNKNOWN" = a := fun hh => ha hh.symm
  have hd2 : ¬ "UNKNOWN" = d := fun hh => hd hh.symm
  refine ⟨?_, ?_, ?_, ?_⟩
  · simp [process_one, hx, hnb, hp, hc, List.contains_cons, ho2, ha2, hd2]
  · simp [process_one, hx, hnb, hp, hc, List.contains_cons, ho2, ha2, hd2]
  · simp [process_one, hx, hnb, hp, hc, List.contains_cons, ho2, ha2, hd2,
      resolve_name, unique_name, hfs]
  · refine ⟨amount_filename_part a ++ ("_" ++ date_filename_part d), ?_⟩
    rw [hempty]
    unfold success_base_name
    rw [String.empty_append, String.append_assoc, String.append_assoc]

def empty_org_fields : JsonFields :=
  { recipientOrgName := some "???", amount := some "50", date := some "01.01.2024" }

def empty_org_env : FileEnv := { sample_env with gpt := .success empty_org_fields }

theorem empty_org_still_success_witness :
    (process_one "out" "/in/blank.pdf" empty_org_env).row.status = "SUCCESS" ∧
    (process_one "out" "/in/blank.pdf" empty_org_env).copies =
      [("/in/blank.pdf", "out/_$50_01.01.2024.pdf")] := by
  have h := empty_org_still_success "out" "/in/blank.pdf" empty_org_env
    "some text" "???" "50" "01.01.2024" rfl (by decide) (by decide) (by decide)
    (by decide) (by decide) (by decide) rfl (fun n => rfl)
  exact ⟨h.1, h.2.2.1.trans (by decide)⟩

end ReceiptRenamer
